import Mathlib

/-!
Verification of the simplefs on-disk filesystem engine (src/simplefs/simple.c).

The C code is shallowly embedded: each C function that the claims mention is
transcribed as a computable Lean definition over an explicit filesystem state.
Machine integers become Nat (the quantities involved are counters, block
indices and byte offsets, none of which can overflow a uint64_t for the
state sizes the filesystem supports; the one place where a narrower machine
width shapes the behaviour, the 32-bit int shift inside the free-block
allocator, is transcribed with that width's semantics), raw block memory
becomes total functions from indices to records, and the fallible kernel
collaborators (buffer-head reads, user-space copies) become explicit boolean
oracles threaded through the transcriptions of the operations that consult
them.  Locks are elided: the embedding is of the sequential behaviour of each
operation, which is what the claims address.
-/

/-- Modelled from the spec: the constants of super.h are not part of src/
(only simple.c is); the spec fixes block 0 = superblock. -/
def SIMPLEFS_SUPERBLOCK_BLOCK_NUMBER : Nat := 0

/-- Modelled from the spec: block 1 holds the inode store (super.h absent). -/
def SIMPLEFS_INODESTORE_BLOCK_NUMBER : Nat := 1

/-- Modelled from the spec: block 2 holds the root directory data (super.h absent). -/
def SIMPLEFS_ROOTDIR_DATABLOCK_NUMBER : Nat := 2

/-- Modelled from the spec: the root directory inode number (super.h absent). -/
def SIMPLEFS_ROOTDIR_INODE_NUMBER : Nat := 1

/-- Modelled from the spec: the free-block bitmask width silently caps the
total filesystem objects; super.h is absent so the cap is modelled as the
bitmask width of a 64-bit word. -/
def SIMPLEFS_MAX_FILESYSTEM_OBJECTS_SUPPORTED : Nat := 64

/-- Modelled from the spec: magic constant identifying the format (super.h absent). -/
def SIMPLEFS_MAGIC : Nat := 0x10032013

/-- Modelled from the spec: the compiled block size (super.h absent). -/
def SIMPLEFS_DEFAULT_BLOCK_SIZE : Nat := 4096

/-- Modelled from the spec: the base used when assigning fresh inode numbers
in simplefs_create_fs_object (super.h absent). -/
def SIMPLEFS_START_INO : Nat := 10

/-- Modelled from the spec: inode numbers reserved below the dynamically
assigned range (super.h absent). -/
def SIMPLEFS_RESERVED_INODES : Nat := 3

/-- Linux errno values used by simple.c (external OS contract). -/
def EPERM : Int := 1

/-- The errno value EIO (the Lean name EIO is taken by core). -/
def EIO_errno : Int := 5

def EFAULT : Int := 14

def EINVAL : Int := 22

def ENOSPC : Int := 28

/-- POSIX mode-bit test used by simple.c: S_ISDIR(m) checks the file-type
bits of the mode against the directory type (external OS contract). -/
def S_ISDIR (m : Nat) : Bool := m &&& 0xF000 == 0x4000

/-- POSIX mode-bit test: S_ISREG(m) checks the file-type bits of the mode
against the regular-file type (external OS contract). -/
def S_ISREG (m : Nat) : Bool := m &&& 0xF000 == 0x8000

/-- struct simplefs_super_block: the on-disk superblock fields read and
written by simple.c. -/
structure simplefs_super_block where
  version : Nat
  magic : Nat
  block_size : Nat
  inodes_count : Nat
  free_blocks : Nat
deriving DecidableEq

/-- struct simplefs_inode: per-object metadata record.  The C struct holds
file_size and dir_children_count in one union; the single field file_size
plays both roles here, with dir_children_count as the directory-view
accessor. -/
structure simplefs_inode where
  mode : Nat
  inode_no : Nat
  data_block_number : Nat
  file_size : Nat
deriving DecidableEq

/-- The directory-view accessor of the size union of struct simplefs_inode. -/
def simplefs_inode.dir_children_count (i : simplefs_inode) : Nat := i.file_size

/-- struct simplefs_dir_record: a directory entry (filename, inode number). -/
structure simplefs_dir_record where
  filename : String
  inode_no : Nat
deriving DecidableEq

/-- The filesystem state the embedded operations act on: the superblock, the
inode-store block viewed as an unbounded array of inode records (the C code
reinterprets the raw block; entries at or past inodes_count are whatever
bytes happen to be there), each block viewed as an unbounded array of
directory records, and each block viewed as a byte array. -/
structure FS where
  sb : simplefs_super_block
  istore : Nat → simplefs_inode
  dirdata : Nat → Nat → simplefs_dir_record
  filedata : Nat → Nat → Nat

/-- First index at or after i, within the next fuel indices, at which p
holds: the early-exit bounded scan pattern used by the for loops of
simplefs_get_inode, simplefs_lookup and simplefs_sb_get_a_freeblock. -/
def scanFirst (p : Nat → Bool) : Nat → Nat → Option Nat
  | _, 0 => none
  | i, r + 1 => if p i then some i else scanFirst p (i + 1) r

/-- The while loop of simplefs_inode_search: starting from index idx with
fuel remaining steps, advance while the record's inode number differs from
the target, and return the index at which the loop stops. -/
def simplefs_inode_search_loop (store : Nat → simplefs_inode) (t : Nat) : Nat → Nat → Nat
  | idx, 0 => idx
  | idx, r + 1 =>
    if (store idx).inode_no = t then idx else simplefs_inode_search_loop store t (idx + 1) r

/-- simplefs_inode_search (simple.c:55): linear scan of the inode-store
block for the record whose inode_no matches the one of the search record.
The while loop stops at the first match or once count records have been
scanned; the code then tests the record at the stop position once more and
returns it on a match (so the record at index count is itself examined).
Returns the index of the returned record. -/
def simplefs_inode_search (inodes_count : Nat) (store : Nat → simplefs_inode)
    (search : simplefs_inode) : Option Nat :=
  if (store (simplefs_inode_search_loop store search.inode_no 0 inodes_count)).inode_no
      = search.inode_no then
    some (simplefs_inode_search_loop store search.inode_no 0 inodes_count)
  else none

/-- simplefs_get_inode (simple.c:257): bounded for loop over the first
inodes_count records of the inode store, returning a copy of the first
record whose inode_no matches. -/
def simplefs_get_inode (inodes_count : Nat) (store : Nat → simplefs_inode)
    (inode_no : Nat) : Option simplefs_inode :=
  match scanFirst (fun i => (store i).inode_no == inode_no) 0 inodes_count with
  | some i => some (store i)
  | none => none

/-- simplefs_inode_save (simple.c:347): locate the record via
simplefs_inode_search and overwrite it in place; returns -EIO and leaves
the store unchanged when the search fails.  Result is (return value, new
inode-store contents). -/
def simplefs_inode_save (inodes_count : Nat) (store : Nat → simplefs_inode)
    (sfs_inode : simplefs_inode) : Int × (Nat → simplefs_inode) :=
  match simplefs_inode_search inodes_count store sfs_inode with
  | some idx => (0, Function.update store idx sfs_inode)
  | none => (-EIO_errno, store)

/-- The uint64_t value of the C expression 1 << i as it reaches the
free_blocks arithmetic of simplefs_sb_get_a_freeblock (simple.c:142,160):
the shifted 1 is a 32-bit int, so for i up to 30 the value is the single
bit 2^i; at i = 31 the shift overflows to the most negative int, which the
conversion to the width of the uint64_t operand sign-extends to
0xFFFFFFFF80000000 (bits 31..63 all set); a shift by 32 or more is
undefined behaviour in C, transcribed here with the de-facto x86 semantics
of masking the shift count to its low five bits.  Bitwise complement
commutes with the sign extension, so the clear mask ~(1 << i) of the C is
the 64-bit complement of this word. -/
def c_int_shl1 (i : Nat) : Nat :=
  if i % 32 = 31 then 2 ^ 64 - 2 ^ 31 else 2 ^ (i % 32)

/-- simplefs_sb_get_a_freeblock (simple.c:123): scan bit positions 3 up to
the supported maximum for a position whose test free_blocks & (1 << i) is
non-zero (bit set = block free); on a hit, clear free_blocks with
~(1 << i) and return the index, otherwise return -ENOSPC with the bitmask
untouched.  The shifted 1 is a 32-bit int although free_blocks is
uint64_t, so both words are the promoted c_int_shl1 value and its 64-bit
complement, not the single bit the loop intends once i reaches 31.
Result is (return value, found index, new free_blocks bitmask). -/
def simplefs_sb_get_a_freeblock (free_blocks : Nat) : Int × Option Nat × Nat :=
  match scanFirst (fun i => free_blocks &&& c_int_shl1 i != 0) 3
      (SIMPLEFS_MAX_FILESYSTEM_OBJECTS_SUPPORTED - 3) with
  | some i => (0, some i, free_blocks &&& ((2 ^ 64 - 1) ^^^ c_int_shl1 i))
  | none => (-ENOSPC, none, free_blocks)

/-- Result of simplefs_read: the VFS return value, the bytes copied to the
user buffer, the file position after the call, and the filesystem state
after the call. -/
structure ReadResult where
  ret : Int
  bytes : List Nat
  ppos : Nat
  fs : FS

/-- simplefs_read (simple.c:299).  Returns 0 immediately when the offset is
at or past the file size; otherwise reads the object's data block and
copies min(file_size, len) bytes to the user starting from the beginning of
the block, then advances the file position by that count.  bh_ok models
whether sb_bread succeeds (on failure the code returns 0), copy_ok whether
copy_to_user succeeds (on failure the code returns -EFAULT). -/
def simplefs_read (fs : FS) (inode : simplefs_inode) (len ppos : Nat)
    (bh_ok copy_ok : Bool) : ReadResult :=
  if inode.file_size ≤ ppos then
    { ret := 0, bytes := [], ppos := ppos, fs := fs }
  else if bh_ok = false then
    { ret := 0, bytes := [], ppos := ppos, fs := fs }
  else
    let nbytes := min inode.file_size len
    if copy_ok = false then
      { ret := -EFAULT, bytes := [], ppos := ppos, fs := fs }
    else
      { ret := (nbytes : Int),
        bytes := (List.range nbytes).map (fun k => fs.filedata inode.data_block_number k),
        ppos := ppos + nbytes, fs := fs }

/-- Result of simplefs_write: the VFS return value, the filesystem state,
the in-memory inode of the written object, and the file position after the
call. -/
structure WriteResult where
  ret : Int
  fs : FS
  inode : simplefs_inode
  ppos : Nat

/-- simplefs_write (simple.c:387).  Copies the user buffer into the
object's data block starting at the file position, advances the position by
the buffer length, sets the in-memory inode's file_size to the new position
unconditionally, and persists the inode record via simplefs_inode_save; a
failing save turns the returned length into the save's error code.  bh_ok
models whether sb_bread succeeds (on failure the code returns 0 having
changed nothing), copy_ok whether copy_from_user succeeds (on failure the
code returns -EFAULT having changed nothing). -/
def simplefs_write (fs : FS) (sfs_inode : simplefs_inode) (buf : List Nat) (ppos : Nat)
    (bh_ok copy_ok : Bool) : WriteResult :=
  if bh_ok = false then
    { ret := 0, fs := fs, inode := sfs_inode, ppos := ppos }
  else if copy_ok = false then
    { ret := -EFAULT, fs := fs, inode := sfs_inode, ppos := ppos }
  else
    let block := fs.filedata sfs_inode.data_block_number
    let block2 := fun k =>
      if ppos ≤ k ∧ k < ppos + buf.length then buf.getD (k - ppos) 0 else block k
    let fs1 : FS :=
      { fs with filedata := Function.update fs.filedata sfs_inode.data_block_number block2 }
    let ppos2 := ppos + buf.length
    let inode2 : simplefs_inode := { sfs_inode with file_size := ppos2 }
    let saved := simplefs_inode_save fs1.sb.inodes_count fs1.istore inode2
    { ret := if saved.1 = 0 then (buf.length : Int) else saved.1,
      fs := { fs1 with istore := saved.2 }, inode := inode2, ppos := ppos2 }

/-- simplefs_lookup (simple.c:663): scan the parent directory's data block
over its first dir_children_count records for an exact filename match; on a
match, materialize the referenced inode by number via simplefs_get_inode
(the stored object handed to the VFS as i_private). -/
def simplefs_lookup (fs : FS) (parent : simplefs_inode) (name : String) :
    Option simplefs_inode :=
  match scanFirst (fun j => (fs.dirdata parent.data_block_number j).filename == name) 0
      parent.dir_children_count with
  | some j =>
    simplefs_get_inode fs.sb.inodes_count fs.istore
      (fs.dirdata parent.data_block_number j).inode_no
  | none => none

/-- The six actions of simplefs_create_fs_object whose ordering the design
fixes: the object-count headroom check, the mode check, the block
allocation, the inode-store append, the parent directory-record append, and
the parent children-count increment with its save.  An action is recorded
in a creation's trace when it completes successfully. -/
inductive CreateStep where
  | check_count
  | check_mode
  | alloc_block
  | inode_add
  | dir_append
  | children_inc
deriving DecidableEq

/-- Result of simplefs_create_fs_object: the VFS return value, the
filesystem state, the created object's in-memory inode (none when creation
failed before the object was handed out), the parent's in-memory inode, and
the ordered trace of completed actions. -/
structure CreateResult where
  ret : Int
  fs : FS
  new_inode : Option simplefs_inode
  parent : simplefs_inode
  trace : List CreateStep

/-- simplefs_create_fs_object (simple.c:497).  In source order: read the
object count and fail -ENOSPC at the supported maximum; fail -EINVAL unless
the mode is a directory or regular file; assign the fresh inode number
count + SIMPLEFS_START_INO - SIMPLEFS_RESERVED_INODES + 1 and build the new
inode with zero file_size / dir_children_count; allocate a free data block
(failing -ENOSPC); append the inode at slot count of the inode store and
increment the superblock count (simplefs_inode_add, simple.c:73); write the
directory record at slot dir_children_count of the parent's data block;
increment the parent's dir_children_count and persist it with
simplefs_inode_save, whose failure is returned with no rollback. -/
def simplefs_create_fs_object (fs : FS) (parent : simplefs_inode) (name : String)
    (mode : Nat) : CreateResult :=
  let count := fs.sb.inodes_count
  if SIMPLEFS_MAX_FILESYSTEM_OBJECTS_SUPPORTED ≤ count then
    { ret := -ENOSPC, fs := fs, new_inode := none, parent := parent, trace := [] }
  else if S_ISDIR mode = false ∧ S_ISREG mode = false then
    { ret := -EINVAL, fs := fs, new_inode := none, parent := parent,
      trace := [CreateStep.check_count] }
  else
    let ino := count + SIMPLEFS_START_INO - SIMPLEFS_RESERVED_INODES + 1
    match simplefs_sb_get_a_freeblock fs.sb.free_blocks with
    | (aret, none, _) =>
      { ret := aret, fs := fs, new_inode := none, parent := parent,
        trace := [CreateStep.check_count, CreateStep.check_mode] }
    | (_, some blk, fb2) =>
      let sfs_inode : simplefs_inode :=
        { mode := mode, inode_no := ino, data_block_number := blk, file_size := 0 }
      let fs1 : FS := { fs with sb := { fs.sb with free_blocks := fb2 } }
      let fs2 : FS :=
        { fs1 with istore := Function.update fs1.istore count sfs_inode,
                   sb := { fs1.sb with inodes_count := count + 1 } }
      let newrec : simplefs_dir_record := { filename := name, inode_no := ino }
      let pblock2 :=
        Function.update (fs2.dirdata parent.data_block_number) parent.dir_children_count newrec
      let fs3 : FS :=
        { fs2 with
            dirdata := Function.update fs2.dirdata parent.data_block_number pblock2 }
      let parent2 : simplefs_inode :=
        { parent with file_size := parent.dir_children_count + 1 }
      let saved := simplefs_inode_save fs3.sb.inodes_count fs3.istore parent2
      if saved.1 = 0 then
        { ret := 0, fs := { fs3 with istore := saved.2 }, new_inode := some sfs_inode,
          parent := parent2,
          trace := [CreateStep.check_count, CreateStep.check_mode, CreateStep.alloc_block,
            CreateStep.inode_add, CreateStep.dir_append, CreateStep.children_inc] }
      else
        { ret := saved.1, fs := fs3, new_inode := some sfs_inode, parent := parent2,
          trace := [CreateStep.check_count, CreateStep.check_mode, CreateStep.alloc_block,
            CreateStep.inode_add, CreateStep.dir_append] }

/-- The root handle simplefs_fill_super builds on a successful mount: the
VFS root inode's number and its private pointer to the stored root inode
record. -/
structure vfs_root where
  i_ino : Nat
  i_private : Option simplefs_inode
deriving DecidableEq

/-- simplefs_fill_super (simple.c:765).  Reads the on-disk superblock;
fails when the stored magic differs from SIMPLEFS_MAGIC, and fails when the
stored block size differs from the compiled SIMPLEFS_DEFAULT_BLOCK_SIZE; in
both cases the returned error is the initial value -EPERM of ret.  On
success, returns the root handle numbered SIMPLEFS_ROOTDIR_INODE_NUMBER
whose private data is the stored root inode fetched with
simplefs_get_inode. -/
def simplefs_fill_super (sb_disk : simplefs_super_block)
    (istore : Nat → simplefs_inode) : Except Int vfs_root :=
  if sb_disk.magic ≠ SIMPLEFS_MAGIC then
    Except.error (-EPERM)
  else if sb_disk.block_size ≠ SIMPLEFS_DEFAULT_BLOCK_SIZE then
    Except.error (-EPERM)
  else
    Except.ok
      { i_ino := SIMPLEFS_ROOTDIR_INODE_NUMBER,
        i_private := simplefs_get_inode sb_disk.inodes_count istore
          SIMPLEFS_ROOTDIR_INODE_NUMBER }

/-- A concrete root-directory inode: directory mode, the root inode number,
the root directory data block, no children yet. -/
def exRoot : simplefs_inode :=
  { mode := 0x4000, inode_no := 1, data_block_number := 2, file_size := 0 }

/-- A concrete regular-file inode on data block 3 holding 4 bytes. -/
def exFile : simplefs_inode :=
  { mode := 0x8000, inode_no := 2, data_block_number := 3, file_size := 4 }

/-- A concrete freshly formatted filesystem: one stored inode (the root),
data block 3 free, empty directory data. -/
def exFS : FS :=
  { sb := { version := 1, magic := SIMPLEFS_MAGIC, block_size := SIMPLEFS_DEFAULT_BLOCK_SIZE,
            inodes_count := 1, free_blocks := 8 },
    istore := fun _ => exRoot,
    dirdata := fun _ _ => { filename := "", inode_no := 0 },
    filedata := fun _ _ => 0 }

/-- A concrete filesystem whose byte content at offset k of every block is
k + 10, with the root and one file in the inode store. -/
def exReadFS : FS :=
  { sb := { version := 1, magic := SIMPLEFS_MAGIC, block_size := SIMPLEFS_DEFAULT_BLOCK_SIZE,
            inodes_count := 2, free_blocks := 0 },
    istore := fun i => if i = 1 then exFile else exRoot,
    dirdata := fun _ _ => { filename := "", inode_no := 0 },
    filedata := fun _ k => k + 10 }

/-- A concrete inode-store image every record of which carries inode
number 7: the bytes a raw block happens to hold before any append. -/
def exJunkStore : Nat → simplefs_inode :=
  fun _ => { mode := 0, inode_no := 7, data_block_number := 0, file_size := 0 }

/-- A concrete inode record with the junk inode number 7. -/
def exInode7 : simplefs_inode :=
  { mode := 0x8000, inode_no := 7, data_block_number := 5, file_size := 0 }

/-- A concrete inode record with inode number 5, absent from exJunkStore. -/
def exInode5 : simplefs_inode :=
  { mode := 0x8000, inode_no := 5, data_block_number := 5, file_size := 0 }

/-- A concrete on-disk superblock whose magic number is wrong. -/
def exBadMagicDisk : simplefs_super_block :=
  { version := 1, magic := 0, block_size := SIMPLEFS_DEFAULT_BLOCK_SIZE,
    inodes_count := 1, free_blocks := 8 }

/-- A concrete on-disk superblock with the right magic and a wrong block size. -/
def exBadSizeDisk : simplefs_super_block :=
  { version := 1, magic := SIMPLEFS_MAGIC, block_size := 512,
    inodes_count := 1, free_blocks := 8 }

/-- A concrete valid on-disk superblock. -/
def exGoodDisk : simplefs_super_block :=
  { version := 1, magic := SIMPLEFS_MAGIC, block_size := SIMPLEFS_DEFAULT_BLOCK_SIZE,
    inodes_count := 1, free_blocks := 8 }

theorem scanFirst_eq_none (p : Nat → Bool) :
    ∀ r i, (∀ k, k < r → p (i + k) = false) → scanFirst p i r = none := by
  intro r
  induction r with
  | zero => intro i _; rfl
  | succ r ih =>
    intro i h
    have h0 : p i = false := by
      have := h 0 (Nat.succ_pos r)
      simpa using this
    have hrest : ∀ k, k < r → p (i + 1 + k) = false := by
      intro k hk
      have : i + 1 + k = i + (k + 1) := by omega
      rw [this]
      exact h (k + 1) (by omega)
    simp [scanFirst, h0, ih (i + 1) hrest]

theorem scanFirst_eq_some (p : Nat → Bool) :
    ∀ r i j, i ≤ j → j < i + r → p j = true →
      (∀ k, i ≤ k → k < j → p k = false) → scanFirst p i r = some j := by
  intro r
  induction r with
  | zero => intro i j h1 h2 _ _; omega
  | succ r ih =>
    intro i j h1 h2 hp hmin
    by_cases hij : i = j
    · subst hij
      simp [scanFirst, hp]
    · have hi : p i = false := hmin i (Nat.le_refl i) (by omega)
      have : scanFirst p (i + 1) r = some j :=
        ih (i + 1) j (by omega) (by omega) hp (fun k hk1 hk2 => hmin k (by omega) hk2)
      simp [scanFirst, hi, this]

theorem inode_search_loop_no_match (store : Nat → simplefs_inode) (t : Nat) :
    ∀ r i, (∀ k, k < r → (store (i + k)).inode_no ≠ t) →
      simplefs_inode_search_loop store t i r = i + r := by
  intro r
  induction r with
  | zero => intro i _; rfl
  | succ r ih =>
    intro i h
    have h0 : (store i).inode_no ≠ t := by
      have := h 0 (Nat.succ_pos r)
      simpa using this
    have hrest : ∀ k, k < r → (store (i + 1 + k)).inode_no ≠ t := by
      intro k hk
      have : i + 1 + k = i + (k + 1) := by omega
      rw [this]
      exact h (k + 1) (by omega)
    have hloop : simplefs_inode_search_loop store t (i + 1) r = i + 1 + r := ih (i + 1) hrest
    simp only [simplefs_inode_search_loop]
    rw [if_neg h0, hloop]
    omega

theorem inode_search_loop_match (store : Nat → simplefs_inode) (t : Nat) :
    ∀ r i j, i ≤ j → j < i + r → (store j).inode_no = t →
      (∀ k, i ≤ k → k < j → (store k).inode_no ≠ t) →
      simplefs_inode_search_loop store t i r = j := by
  intro r
  induction r with
  | zero => intro i j h1 h2 _ _; omega
  | succ r ih =>
    intro i j h1 h2 hp hmin
    by_cases hij : i = j
    · subst hij
      simp [simplefs_inode_search_loop, hp]
    · have hi : (store i).inode_no ≠ t := hmin i (Nat.le_refl i) (by omega)
      have : simplefs_inode_search_loop store t (i + 1) r = j :=
        ih (i + 1) j (by omega) (by omega) hp (fun k hk1 hk2 => hmin k (by omega) hk2)
      simp [simplefs_inode_search_loop, hi, this]

theorem inode_search_loop_le (store : Nat → simplefs_inode) (t : Nat) :
    ∀ r i, simplefs_inode_search_loop store t i r ≤ i + r := by
  intro r
  induction r with
  | zero => intro i; simp [simplefs_inode_search_loop]
  | succ r ih =>
    intro i
    by_cases h : (store i).inode_no = t
    · simp only [simplefs_inode_search_loop]
      rw [if_pos h]
      omega
    · have hr := ih (i + 1)
      simp only [simplefs_inode_search_loop]
      rw [if_neg h]
      omega

theorem inode_search_loop_congr (store store2 : Nat → simplefs_inode) (t : Nat) :
    ∀ r i, (∀ k, i ≤ k → k < i + r → (store2 k).inode_no = (store k).inode_no) →
      simplefs_inode_search_loop store2 t i r = simplefs_inode_search_loop store t i r := by
  intro r
  induction r with
  | zero => intro i _; rfl
  | succ r ih =>
    intro i h
    have h0 : (store2 i).inode_no = (store i).inode_no := h i (Nat.le_refl i) (by omega)
    have hrest := ih (i + 1) (fun k hk1 hk2 => h k (by omega) (by omega))
    by_cases hc : (store i).inode_no = t
    · simp [simplefs_inode_search_loop, hc, h0]
    · have hc2 : (store2 i).inode_no ≠ t := by rw [h0]; exact hc
      simp [simplefs_inode_search_loop, hc, hc2, hrest]

/-- C10: every read, successful or not, leaves the whole filesystem state
(data blocks, file sizes, inode store, superblock) unchanged, and the file
position it hands back is the initial position advanced by exactly the
number of bytes returned. -/
theorem simplefs_read_frame (fs : FS) (inode : simplefs_inode) (len ppos : Nat)
    (bh_ok copy_ok : Bool) :
    (simplefs_read fs inode len ppos bh_ok copy_ok).fs = fs ∧
    (simplefs_read fs inode len ppos bh_ok copy_ok).ppos =
      ppos + (simplefs_read fs inode len ppos bh_ok copy_ok).bytes.length := by
  unfold simplefs_read
  by_cases h1 : inode.file_size ≤ ppos <;> by_cases h2 : bh_ok = false <;>
    by_cases h3 : copy_ok = false <;> simp [h1, h2, h3]

/-- C7: a read whose offset is at or past the file size returns zero bytes
with return value 0 (never an error), for any requested length and any
behaviour of the block-device and user-copy collaborators, and leaves the
file position and the filesystem unchanged. -/
theorem simplefs_read_beyond_eof (fs : FS) (inode : simplefs_inode) (len ppos : Nat)
    (bh_ok copy_ok : Bool) (h : inode.file_size ≤ ppos) :
    simplefs_read fs inode len ppos bh_ok copy_ok =
      { ret := 0, bytes := [], ppos := ppos, fs := fs } := by
  unfold simplefs_read
  rw [if_pos h]

theorem simplefs_read_beyond_eof_witness :
    simplefs_read exFS exRoot 5 3 false true =
      { ret := 0, bytes := [], ppos := 3, fs := exFS } :=
  simplefs_read_beyond_eof exFS exRoot 5 3 false true (by decide)

/-- C2 counterexample: on a file of size 4 whose data block holds byte
k + 10 at offset k, a read of length 2 at offset 1 returns the bytes at
block positions 0 and 1, not the bytes at positions 1 and 2 that a copy
starting at the read offset would return. -/
theorem simplefs_read_cex :
    (simplefs_read exReadFS exFile 2 1 true true).bytes =
      [exReadFS.filedata exFile.data_block_number 0,
        exReadFS.filedata exFile.data_block_number 1] ∧
    (simplefs_read exReadFS exFile 2 1 true true).bytes ≠
      [exReadFS.filedata exFile.data_block_number 1,
        exReadFS.filedata exFile.data_block_number 2] := by
  constructor
  · decide
  · decide

/-- C2 amended: a read at an offset below the file size returns exactly
min(file_size, length) bytes taken from the beginning of the object's data
block (position 0, regardless of the offset), and advances the file
position by that count. -/
theorem simplefs_read_from_block_start (fs : FS) (inode : simplefs_inode) (len ppos : Nat)
    (h : ppos < inode.file_size) :
    simplefs_read fs inode len ppos true true =
      { ret := (min inode.file_size len : Nat),
        bytes := (List.range (min inode.file_size len)).map
          (fun k => fs.filedata inode.data_block_number k),
        ppos := ppos + min inode.file_size len, fs := fs } := by
  unfold simplefs_read
  rw [if_neg (by omega)]
  simp

theorem simplefs_read_from_block_start_witness :
    simplefs_read exReadFS exFile 2 1 true true =
      { ret := (min exFile.file_size 2 : Nat),
        bytes := (List.range (min exFile.file_size 2)).map
          (fun k => exReadFS.filedata exFile.data_block_number k),
        ppos := 1 + min exFile.file_size 2, fs := exReadFS } :=
  simplefs_read_from_block_start exReadFS exFile 2 1 (by decide)

/-- C3: a write through working collaborators sets the in-memory inode's
file_size to offset + length(bytes) unconditionally, whatever the previous
size; in particular a second write at the same offset leaves file_size at
the second write's end offset, even when the second buffer is shorter. -/
theorem simplefs_write_sets_size (fs : FS) (inode : simplefs_inode) (buf buf2 : List Nat)
    (ppos : Nat) :
    (simplefs_write fs inode buf ppos true true).inode.file_size = ppos + buf.length ∧
    (simplefs_write (simplefs_write fs inode buf ppos true true).fs
        (simplefs_write fs inode buf ppos true true).inode buf2 ppos true true).inode.file_size =
      ppos + buf2.length := by
  constructor <;> simp [simplefs_write]

/-- C5: the allocator evaluated at the failing input free_blocks = 2^40
(bits 3..30 busy, bit 40 the lowest free bit of the supported range).  The
claim requires the call to return the lowest free bit, 40, clear exactly
that bit, and leave every other bit intact; instead, because the 32-bit
shifted 1 sign-extends at position 31 into a word covering bits 31..63,
the scan stops at i = 31 and the call returns block index 31 -- whose bit
was never free, as the second conjunct records -- while the clear with the
complement word 0x7FFFFFFF wipes the whole 31..63 range, losing the
genuinely free block 40 recorded by the third conjunct. -/
theorem simplefs_sb_get_a_freeblock_bug :
    simplefs_sb_get_a_freeblock (2 ^ 40) = ((0 : Int), some 31, 0) ∧
    (2 ^ 40 : Nat).testBit 31 = false ∧ (2 ^ 40 : Nat).testBit 40 = true := by
  refine ⟨by decide, by decide, by decide⟩

/-- C6 counterexample: a mount attempt on an image with a wrong magic
number and a mount attempt on an image with the right magic but a wrong
block size fail with the same returned error value -EPERM (both paths fall
through to the initial ret of simplefs_fill_super); the two failures are
not distinct errors as the claim states, being told apart only in kernel
log messages. -/
theorem simplefs_fill_super_same_error :
    simplefs_fill_super exBadMagicDisk exJunkStore = Except.error (-EPERM) ∧
    simplefs_fill_super exBadSizeDisk exJunkStore = Except.error (-EPERM) := by
  constructor <;> rfl

/-- C6 amended: mount fails with -EPERM when the stored magic differs from
the expected constant, fails with the same error value -EPERM when the
stored block size differs from the compiled block size, and on success
returns a handle to the root directory inode. -/
theorem simplefs_fill_super_amended (d : simplefs_super_block)
    (store : Nat → simplefs_inode) :
    (d.magic ≠ SIMPLEFS_MAGIC → simplefs_fill_super d store = Except.error (-EPERM)) ∧
    (d.magic = SIMPLEFS_MAGIC → d.block_size ≠ SIMPLEFS_DEFAULT_BLOCK_SIZE →
      simplefs_fill_super d store = Except.error (-EPERM)) ∧
    (d.magic = SIMPLEFS_MAGIC → d.block_size = SIMPLEFS_DEFAULT_BLOCK_SIZE →
      simplefs_fill_super d store =
        Except.ok
          { i_ino := SIMPLEFS_ROOTDIR_INODE_NUMBER,
            i_private := simplefs_get_inode d.inodes_count store
              SIMPLEFS_ROOTDIR_INODE_NUMBER }) := by
  refine ⟨?_, ?_, ?_⟩
  · intro h1
    unfold simplefs_fill_super
    rw [if_pos h1]
  · intro h1 h2
    unfold simplefs_fill_super
    rw [if_neg (by simp [h1]), if_pos h2]
  · intro h1 h2
    unfold simplefs_fill_super
    rw [if_neg (by simp [h1]), if_neg (by simp [h2])]

theorem simplefs_fill_super_amended_witness :
    simplefs_fill_super exGoodDisk exJunkStore =
      Except.ok
        { i_ino := SIMPLEFS_ROOTDIR_INODE_NUMBER,
          i_private := simplefs_get_inode exGoodDisk.inodes_count exJunkStore
            SIMPLEFS_ROOTDIR_INODE_NUMBER } :=
  (simplefs_fill_super_amended exGoodDisk exJunkStore).2.2 (by decide) (by decide)

/-- C8 counterexample: with inodes_count = 0 no record lies within the
first inodes_count records, so the claimed behaviour is not-found; yet the
search examines the record at index 0 = inodes_count (the junk beyond the
valid prefix) and returns it because its inode number happens to match. -/
theorem simplefs_inode_search_cex :
    simplefs_inode_search 0 exJunkStore exInode7 = some 0 := by
  decide

/-- C8 amended: the inode-store search returns the first matching record
among the first inodes_count records when one exists; when none of those
match it additionally examines exactly the record at index inodes_count,
returning it if it matches and not-found otherwise; records beyond index
inodes_count are never examined (the result only depends on the store up to
index inodes_count). -/
theorem simplefs_inode_search_amended (cnt : Nat) (store : Nat → simplefs_inode)
    (s : simplefs_inode) :
    (∀ j, j < cnt → (store j).inode_no = s.inode_no →
      (∀ m, m < j → (store m).inode_no ≠ s.inode_no) →
      simplefs_inode_search cnt store s = some j) ∧
    ((∀ j, j < cnt → (store j).inode_no ≠ s.inode_no) →
      simplefs_inode_search cnt store s =
        (if (store cnt).inode_no = s.inode_no then some cnt else none)) ∧
    (∀ store2 : Nat → simplefs_inode, (∀ k, k ≤ cnt → store2 k = store k) →
      simplefs_inode_search cnt store2 s = simplefs_inode_search cnt store s) := by
  refine ⟨?_, ?_, ?_⟩
  · intro j hj hmatch hfirst
    have hloop : simplefs_inode_search_loop store s.inode_no 0 cnt = j :=
      inode_search_loop_match store s.inode_no cnt 0 j (Nat.zero_le j) (by omega) hmatch
        (fun k _ hk2 => hfirst k hk2)
    unfold simplefs_inode_search
    rw [hloop, if_pos hmatch]
  · intro hnone
    have hloop : simplefs_inode_search_loop store s.inode_no 0 cnt = cnt := by
      have := inode_search_loop_no_match store s.inode_no cnt 0
        (fun k hk => by simpa using hnone k hk)
      simpa using this
    unfold simplefs_inode_search
    rw [hloop]
  · intro store2 hagree
    have hcongr : simplefs_inode_search_loop store2 s.inode_no 0 cnt =
        simplefs_inode_search_loop store s.inode_no 0 cnt := by
      apply inode_search_loop_congr
      intro k hk1 hk2
      rw [hagree k (by omega)]
    have hle : simplefs_inode_search_loop store s.inode_no 0 cnt ≤ cnt := by
      have := inode_search_loop_le store s.inode_no cnt 0
      simpa using this
    unfold simplefs_inode_search
    rw [hcongr, hagree _ hle]

theorem simplefs_inode_search_amended_witness :
    simplefs_inode_search 1 exJunkStore exInode7 = some 0 :=
  (simplefs_inode_search_amended 1 exJunkStore exInode7).1 0 (by decide) (by decide)
    (by decide)

/-- C9 counterexample: with inodes_count = 0 the object numbered 7 was
never appended to the store, so the claim requires the save to fail with
the stale-reference error and leave the store unchanged; instead the save
succeeds (returns 0) and overwrites the record at index 0. -/
theorem simplefs_inode_save_cex :
    (simplefs_inode_save 0 exJunkStore exInode7).1 = 0 ∧
    (simplefs_inode_save 0 exJunkStore exInode7).2 0 = exInode7 := by
  constructor <;> decide

/-- C9 amended: the save fails with -EIO (the stale-reference condition)
and leaves the inode-store block unchanged whenever the record's object
number matches none of the first inodes_count records nor the boundary
record at index inodes_count that the search also examines. -/
theorem simplefs_inode_save_stale (cnt : Nat) (store : Nat → simplefs_inode)
    (inode : simplefs_inode)
    (h : ∀ j, j ≤ cnt → (store j).inode_no ≠ inode.inode_no) :
    simplefs_inode_save cnt store inode = (-EIO_errno, store) := by
  have hloop : simplefs_inode_search_loop store inode.inode_no 0 cnt = cnt := by
    have := inode_search_loop_no_match store inode.inode_no cnt 0
      (fun k hk => by simpa using h k (by omega))
    simpa using this
  unfold simplefs_inode_save simplefs_inode_search
  rw [hloop, if_neg (h cnt (Nat.le_refl cnt))]

theorem simplefs_inode_save_stale_witness :
    simplefs_inode_save 1 exJunkStore exInode5 = (-EIO_errno, exJunkStore) :=
  simplefs_inode_save_stale 1 exJunkStore exInode5 (by decide)

theorem create_success_core (fs : FS) (parent : simplefs_inode) (name : String)
    (mode : Nat) (blk fb2 ip : Nat)
    (hcount : fs.sb.inodes_count < SIMPLEFS_MAX_FILESYSTEM_OBJECTS_SUPPORTED)
    (hmode : S_ISDIR mode = true ∨ S_ISREG mode = true)
    (halloc : simplefs_sb_get_a_freeblock fs.sb.free_blocks = ((0 : Int), some blk, fb2))
    (hip : ip < fs.sb.inodes_count)
    (hpm : (fs.istore ip).inode_no = parent.inode_no)
    (hpf : ∀ m, m < ip → (fs.istore m).inode_no ≠ parent.inode_no) :
    simplefs_create_fs_object fs parent name mode =
      { ret := 0,
        fs :=
          { sb := { fs.sb with inodes_count := fs.sb.inodes_count + 1, free_blocks := fb2 },
            istore :=
              Function.update
                (Function.update fs.istore fs.sb.inodes_count
                  { mode := mode,
                    inode_no := fs.sb.inodes_count + SIMPLEFS_START_INO -
                      SIMPLEFS_RESERVED_INODES + 1,
                    data_block_number := blk, file_size := 0 }) ip
                { parent with file_size := parent.dir_children_count + 1 },
            dirdata :=
              Function.update fs.dirdata parent.data_block_number
                (Function.update (fs.dirdata parent.data_block_number)
                  parent.dir_children_count
                  { filename := name,
                    inode_no := fs.sb.inodes_count + SIMPLEFS_START_INO -
                      SIMPLEFS_RESERVED_INODES + 1 }),
            filedata := fs.filedata },
        new_inode :=
          some
            { mode := mode,
              inode_no := fs.sb.inodes_count + SIMPLEFS_START_INO -
                SIMPLEFS_RESERVED_INODES + 1,
              data_block_number := blk, file_size := 0 },
        parent := { parent with file_size := parent.dir_children_count + 1 },
        trace := [CreateStep.check_count, CreateStep.check_mode, CreateStep.alloc_block,
          CreateStep.inode_add, CreateStep.dir_append, CreateStep.children_inc] } := by
  have h1 : ¬(SIMPLEFS_MAX_FILESYSTEM_OBJECTS_SUPPORTED ≤ fs.sb.inodes_count) := by omega
  have h2 : ¬(S_ISDIR mode = false ∧ S_ISREG mode = false) := by
    rcases hmode with h | h <;> simp [h]
  have hmatch2 :
      (Function.update fs.istore fs.sb.inodes_count
        { mode := mode,
          inode_no := fs.sb.inodes_count + SIMPLEFS_START_INO -
            SIMPLEFS_RESERVED_INODES + 1,
          data_block_number := blk, file_size := 0 } ip).inode_no =
      (simplefs_inode.mk parent.mode parent.inode_no parent.data_block_number
        (parent.dir_children_count + 1)).inode_no := by
    rw [Function.update_noteq (by omega : ip ≠ fs.sb.inodes_count)]
    exact hpm
  have hloop :
      simplefs_inode_search_loop
        (Function.update fs.istore fs.sb.inodes_count
          { mode := mode,
            inode_no := fs.sb.inodes_count + SIMPLEFS_START_INO -
              SIMPLEFS_RESERVED_INODES + 1,
            data_block_number := blk, file_size := 0 })
        (simplefs_inode.mk parent.mode parent.inode_no parent.data_block_number
          (parent.dir_children_count + 1)).inode_no 0 (fs.sb.inodes_count + 1) = ip := by
    apply inode_search_loop_match _ _ _ 0 ip (Nat.zero_le ip) (by omega) hmatch2
    intro k _ hk2
    rw [Function.update_noteq (by omega : k ≠ fs.sb.inodes_count)]
    exact hpf k hk2
  have hsave :
      simplefs_inode_save (fs.sb.inodes_count + 1)
        (Function.update fs.istore fs.sb.inodes_count
          { mode := mode,
            inode_no := fs.sb.inodes_count + SIMPLEFS_START_INO -
              SIMPLEFS_RESERVED_INODES + 1,
            data_block_number := blk, file_size := 0 })
        (simplefs_inode.mk parent.mode parent.inode_no parent.data_block_number
          (parent.dir_children_count + 1)) =
      ((0 : Int),
        Function.update
          (Function.update fs.istore fs.sb.inodes_count
            { mode := mode,
              inode_no := fs.sb.inodes_count + SIMPLEFS_START_INO -
                SIMPLEFS_RESERVED_INODES + 1,
              data_block_number := blk, file_size := 0 }) ip
          (simplefs_inode.mk parent.mode parent.inode_no parent.data_block_number
            (parent.dir_children_count + 1))) := by
    unfold simplefs_inode_save simplefs_inode_search
    rw [hloop, if_pos hmatch2]
  simp only [simplefs_create_fs_object, halloc, h1, h2, hsave]
  simp

/-- C1: on a valid state (fresh name in the parent, parent registered in the
inode store, fresh inode number available, free block available, headroom in
the object count) with a directory or regular-file mode, create followed by
lookup of the same name under the same parent returns the stored object,
and its stored mode is exactly the mode given to create. -/
theorem simplefs_create_then_lookup (fs : FS) (parent : simplefs_inode) (name : String)
    (mode : Nat) (blk fb2 ip : Nat)
    (hcount : fs.sb.inodes_count < SIMPLEFS_MAX_FILESYSTEM_OBJECTS_SUPPORTED)
    (hmode : S_ISDIR mode = true ∨ S_ISREG mode = true)
    (halloc : simplefs_sb_get_a_freeblock fs.sb.free_blocks = ((0 : Int), some blk, fb2))
    (hip : ip < fs.sb.inodes_count)
    (hpm : (fs.istore ip).inode_no = parent.inode_no)
    (hpf : ∀ m, m < ip → (fs.istore m).inode_no ≠ parent.inode_no)
    (hname : ∀ j, j < parent.dir_children_count →
      (fs.dirdata parent.data_block_number j).filename ≠ name)
    (hfresh : ∀ i, i < fs.sb.inodes_count → (fs.istore i).inode_no ≠
      fs.sb.inodes_count + SIMPLEFS_START_INO - SIMPLEFS_RESERVED_INODES + 1) :
    (simplefs_create_fs_object fs parent name mode).ret = 0 ∧
    simplefs_lookup (simplefs_create_fs_object fs parent name mode).fs
        (simplefs_create_fs_object fs parent name mode).parent name =
      some
        { mode := mode,
          inode_no := fs.sb.inodes_count + SIMPLEFS_START_INO -
            SIMPLEFS_RESERVED_INODES + 1,
          data_block_number := blk, file_size := 0 } := by
  have hcore := create_success_core fs parent name mode blk fb2 ip hcount hmode halloc
    hip hpm hpf
  rw [hcore]
  refine ⟨rfl, ?_⟩
  have hdirscan : scanFirst
      (fun j => ((Function.update fs.dirdata parent.data_block_number
          (Function.update (fs.dirdata parent.data_block_number)
            parent.file_size
            { filename := name,
              inode_no := fs.sb.inodes_count + SIMPLEFS_START_INO -
                SIMPLEFS_RESERVED_INODES + 1 })) parent.data_block_number j).filename ==
        name) 0 (parent.file_size + 1) = some parent.file_size := by
    apply scanFirst_eq_some _ _ _ _ (Nat.zero_le _) (by omega) ?_ ?_
    · simp only [Function.update_same]
      simp
    · intro k _ hk2
      simp only [Function.update_same,
        Function.update_noteq (show k ≠ parent.file_size by omega)]
      simp [hname k hk2]
  have hinoscan : scanFirst
      (fun i => ((Function.update
          (Function.update fs.istore fs.sb.inodes_count
            { mode := mode,
              inode_no := fs.sb.inodes_count + SIMPLEFS_START_INO -
                SIMPLEFS_RESERVED_INODES + 1,
              data_block_number := blk, file_size := 0 }) ip
          (simplefs_inode.mk parent.mode parent.inode_no parent.data_block_number
            (parent.file_size + 1))) i).inode_no ==
        (fs.sb.inodes_count + SIMPLEFS_START_INO - SIMPLEFS_RESERVED_INODES + 1)) 0
      (fs.sb.inodes_count + 1) = some fs.sb.inodes_count := by
    apply scanFirst_eq_some _ _ _ _ (Nat.zero_le _) (by omega) ?_ ?_
    · simp only [Function.update_noteq (show fs.sb.inodes_count ≠ ip by omega),
        Function.update_same]
      simp
    · intro k _ hk2
      by_cases hkip : k = ip
      · have hPN : parent.inode_no ≠
            fs.sb.inodes_count + SIMPLEFS_START_INO - SIMPLEFS_RESERVED_INODES + 1 :=
          fun he => hfresh ip hip (by rw [hpm]; exact he)
        rw [hkip]
        simp [Function.update_same, hPN]
      · simp only [Function.update_noteq hkip,
          Function.update_noteq (show k ≠ fs.sb.inodes_count by omega)]
        simp [hfresh k hk2]
  unfold simplefs_lookup
  dsimp only [simplefs_inode.dir_children_count]
  simp only [hdirscan]
  unfold simplefs_get_inode
  simp only [Function.update_same]
  simp only [hinoscan]
  simp only [Function.update_noteq (show fs.sb.inodes_count ≠ ip by omega),
    Function.update_same]

theorem simplefs_create_then_lookup_witness :
    (simplefs_create_fs_object exFS exRoot "a" 0x8000).ret = 0 ∧
    simplefs_lookup (simplefs_create_fs_object exFS exRoot "a" 0x8000).fs
        (simplefs_create_fs_object exFS exRoot "a" 0x8000).parent "a" =
      some { mode := 0x8000, inode_no := 9, data_block_number := 3, file_size := 0 } :=
  simplefs_create_then_lookup exFS exRoot "a" 0x8000 3 0 0 (by decide)
    (Or.inr (by decide)) (by decide) (by decide) (by decide) (by decide) (by decide)
    (by decide)

/-- C4: create performs its actions in the fixed order count check, mode
check, block allocation, inode-store append, parent directory-record
append, parent children-count increment.  A failing count check returns
-ENOSPC with nothing performed and the state untouched; a failing mode
check returns -EINVAL with only the count check performed and the state
untouched; a failing block allocation returns -ENOSPC with only the two
checks performed and the state untouched (so both checks complete before
any allocation or mutation); and a successful creation performs all six
actions in that order, appending the zero-size inode at slot inodes_count,
appending the directory record at slot dir_children_count of the parent's
block, and persisting the incremented parent record. -/
theorem simplefs_create_fs_object_ordering (fs : FS) (parent : simplefs_inode)
    (name : String) (mode : Nat) (blk fb2 ip : Nat) :
    (SIMPLEFS_MAX_FILESYSTEM_OBJECTS_SUPPORTED ≤ fs.sb.inodes_count →
      simplefs_create_fs_object fs parent name mode =
        { ret := -ENOSPC, fs := fs, new_inode := none, parent := parent, trace := [] }) ∧
    (fs.sb.inodes_count < SIMPLEFS_MAX_FILESYSTEM_OBJECTS_SUPPORTED →
      S_ISDIR mode = false → S_ISREG mode = false →
      simplefs_create_fs_object fs parent name mode =
        { ret := -EINVAL, fs := fs, new_inode := none, parent := parent,
          trace := [CreateStep.check_count] }) ∧
    (fs.sb.inodes_count < SIMPLEFS_MAX_FILESYSTEM_OBJECTS_SUPPORTED →
      ¬(S_ISDIR mode = false ∧ S_ISREG mode = false) →
      simplefs_sb_get_a_freeblock fs.sb.free_blocks =
        ((-ENOSPC : Int), none, fs.sb.free_blocks) →
      simplefs_create_fs_object fs parent name mode =
        { ret := -ENOSPC, fs := fs, new_inode := none, parent := parent,
          trace := [CreateStep.check_count, CreateStep.check_mode] }) ∧
    (fs.sb.inodes_count < SIMPLEFS_MAX_FILESYSTEM_OBJECTS_SUPPORTED →
      S_ISDIR mode = true ∨ S_ISREG mode = true →
      simplefs_sb_get_a_freeblock fs.sb.free_blocks = ((0 : Int), some blk, fb2) →
      ip < fs.sb.inodes_count →
      (fs.istore ip).inode_no = parent.inode_no →
      (∀ m, m < ip → (fs.istore m).inode_no ≠ parent.inode_no) →
      simplefs_create_fs_object fs parent name mode =
        { ret := 0,
          fs :=
            { sb :=
                { fs.sb with inodes_count := fs.sb.inodes_count + 1, free_blocks := fb2 },
              istore :=
                Function.update
                  (Function.update fs.istore fs.sb.inodes_count
                    { mode := mode,
                      inode_no := fs.sb.inodes_count + SIMPLEFS_START_INO -
                        SIMPLEFS_RESERVED_INODES + 1,
                      data_block_number := blk, file_size := 0 }) ip
                  { parent with file_size := parent.dir_children_count + 1 },
              dirdata :=
                Function.update fs.dirdata parent.data_block_number
                  (Function.update (fs.dirdata parent.data_block_number)
                    parent.dir_children_count
                    { filename := name,
                      inode_no := fs.sb.inodes_count + SIMPLEFS_START_INO -
                        SIMPLEFS_RESERVED_INODES + 1 }),
              filedata := fs.filedata },
          new_inode :=
            some
              { mode := mode,
                inode_no := fs.sb.inodes_count + SIMPLEFS_START_INO -
                  SIMPLEFS_RESERVED_INODES + 1,
                data_block_number := blk, file_size := 0 },
          parent := { parent with file_size := parent.dir_children_count + 1 },
          trace := [CreateStep.check_count, CreateStep.check_mode,
            CreateStep.alloc_block, CreateStep.inode_add, CreateStep.dir_append,
            CreateStep.children_inc] }) := by
  refine ⟨?_, ?_, ?_, ?_⟩
  · intro h
    unfold simplefs_create_fs_object
    rw [if_pos h]
  · intro h1 hD hR
    unfold simplefs_create_fs_object
    rw [if_neg (by omega), if_pos ⟨hD, hR⟩]
  · intro h1 h2 h3
    unfold simplefs_create_fs_object
    rw [if_neg (by omega), if_neg h2, h3]
  · intro h1 h2 h3 h4 h5 h6
    exact create_success_core fs parent name mode blk fb2 ip h1 h2 h3 h4 h5 h6

theorem simplefs_create_fs_object_ordering_witness :
    (simplefs_create_fs_object exFS exRoot "a" 0x8000).ret = 0 ∧
    (simplefs_create_fs_object exFS exRoot "a" 0x8000).trace =
      [CreateStep.check_count, CreateStep.check_mode, CreateStep.alloc_block,
        CreateStep.inode_add, CreateStep.dir_append, CreateStep.children_inc] := by
  have h := (simplefs_create_fs_object_ordering exFS exRoot "a" 0x8000 3 0 0).2.2.2
    (by decide) (Or.inr (by decide)) (by decide) (by decide) (by decide) (by decide)
  rw [h]
  exact ⟨rfl, rfl⟩
